import Mathlib

/-!
# Nicor Gas Bill Downloader — embedding and verification

A shallow embedding of `src/downloader.mjs` (class `NicorGasBillDownloader`),
`src/auth-error.mjs` (class `AuthenticationError`) and
`src/src/downloader-options.mjs` (class `PollingOptions`).

External collaborators are modelled as oracles:
* the global `fetch` is a pure function from the request URL to either a
  thrown transport error or a response record (the session cookies are
  constant within a run, so they are absorbed into the oracle);
* `fs.writeFile` is a pure function from the save path and the bytes to an
  optional thrown file-system error message (`none` = the write succeeds);
* date arithmetic (`date-fns` `format`, `eachMonthOfInterval` and the
  JavaScript `Date` constructor's calendar normalization) is reimplemented
  faithfully below.

Results of the JavaScript async methods are `Except JsError α`: `.ok` for a
normal return (a resolved promise), `.error` for a thrown error (a rejected
promise).  Observable side effects (probe requests issued, write attempts,
successful writes) are collected in a trace.
-/

namespace NicorBills

/-- Character-list prefix test (used to model substring search). -/
def charsPrefix : List Char → List Char → Bool
  | [], _ => true
  | _ :: _, [] => false
  | a :: as, b :: bs => a == b && charsPrefix as bs

/-- Character-list substring test. -/
def charsContains (p : List Char) : List Char → Bool
  | [] => charsPrefix p []
  | c :: cs => charsPrefix p (c :: cs) || charsContains p cs

/-- Substring test, modelling JavaScript `String.prototype.includes`. -/
def strContains (s pattern : String) : Bool :=
  charsContains pattern.data s.data

/-- Left-pad the decimal rendering of `n` with zeros to width 2
(date-fns format tokens `MM` and `dd`). -/
def pad2 (n : Nat) : String :=
  if n < 10 then "0" ++ toString n else toString n

/-- Left-pad the decimal rendering of `n` with zeros to width 4
(date-fns format token `yyyy`, for the year range this tool handles). -/
def pad4 (n : Nat) : String :=
  if n < 10 then "000" ++ toString n
  else if n < 100 then "00" ++ toString n
  else if n < 1000 then "0" ++ toString n
  else toString n

/-- Year component of date-fns `format` (token `yyyy`). -/
def padYear (y : Int) : String :=
  if y < 0 then "-" ++ pad4 (-y).toNat else pad4 y.toNat

/-- Gregorian leap-year test (as implemented by the JavaScript `Date`). -/
def isLeapYear (y : Int) : Bool :=
  y % 4 = 0 && (y % 100 ≠ 0 || y % 400 = 0)

/-- Number of days of 0-based month `m` of year `y`. -/
def daysInMonth (y : Int) (m : Nat) : Nat :=
  if m = 1 then (if isLeapYear y then 29 else 28)
  else if m = 3 ∨ m = 5 ∨ m = 8 ∨ m = 10 then 30
  else 31

/-- A JavaScript `Date` at day granularity (the only granularity the
downloader uses): a calendar date with 0-based `month < 12` and
1-based `day`. -/
structure JsDate where
  year : Int
  month : Nat
  day : Nat
deriving DecidableEq, Repr

/-- `new Date(y, m, d)` for `0 ≤ m < 12` and `0 ≤ d ≤ 31`, the arguments the
downloader can produce (`m` comes from `getMonth()`, `d` from the clamped
day window): the JavaScript `Date` constructor normalizes an out-of-range
day by rolling into the adjacent month — day `0` is the last day of the
previous month, and a day beyond the month's length carries into the next
month.  One borrow/carry step suffices on this argument range. -/
def mkDate (y : Int) (m : Nat) (d : Int) : JsDate :=
  if d < 1 then
    let pm := if m = 0 then 11 else m - 1
    let py := if m = 0 then y - 1 else y
    ⟨py, pm, ((daysInMonth py pm : Int) + d).toNat⟩
  else if d ≤ (daysInMonth y m : Int) then ⟨y, m, d.toNat⟩
  else
    let nm := if m = 11 then 0 else m + 1
    let ny := if m = 11 then y + 1 else y
    ⟨ny, nm, (d - (daysInMonth y m : Int)).toNat⟩

/-- date-fns `format(date, 'MM/dd/yyyy')`. -/
def formatMMDDYYYY (d : JsDate) : String :=
  pad2 (d.month + 1) ++ "/" ++ pad2 d.day ++ "/" ++ padYear d.year

/-- date-fns `format(date, 'yyyy-MM-dd')`. -/
def formatYYYYMMDD (d : JsDate) : String :=
  padYear d.year ++ "-" ++ pad2 (d.month + 1) ++ "-" ++ pad2 d.day

/-- date-fns `format(date, 'MM/yyyy')`. -/
def formatMMYYYY (d : JsDate) : String :=
  pad2 (d.month + 1) ++ "/" ++ padYear d.year

/-- An error value thrown by the JavaScript code (`src/auth-error.mjs` defines
`AuthenticationError extends Error`; every other thrown value the downloader
can observe is a plain `Error`, the reason `undefined` of a bare
`Promise.reject()`, or a file-system error from `fs.writeFile`). -/
inductive JsError where
  /-- An `AuthenticationError` instance with its `message`. -/
  | authenticationError (message : String)
  /-- A plain `new Error(message)`. -/
  | genericError (message : String)
  /-- The reason `undefined`, from a bare `Promise.reject()`. -/
  | undefinedReject
  /-- A file-system error thrown by `fs.writeFile`. -/
  | ioError (message : String)
deriving DecidableEq, Repr

/-- The `instanceof AuthenticationError` test of the catch clauses. -/
def JsError.isAuthError : JsError → Bool
  | .authenticationError _ => true
  | _ => false

/-- A transport-level failure of the global `fetch` itself (a rejected fetch
promise, e.g. a network failure); never an `AuthenticationError`, which is a
class local to this repository. -/
structure TransportError where
  message : String
deriving DecidableEq, Repr

/-- The parts of a `fetch` `Response` the downloader inspects:
`response.redirected`, `response.url`, `response.headers.get('Content-Type')`
(`none` models `null`), and `response.body` (`none` models `null`; bytes model
the `ReadableStream`). -/
structure FetchResponse where
  redirected : Bool
  url : String
  contentType : Option String
  body : Option (List Nat)
deriving DecidableEq, Repr

/-- The environment of one downloader instance plus its external
collaborators: the constructor fields `accountNumber` and `billId`, the
`fetch` oracle and the `fs.writeFile` oracle. -/
structure Env where
  accountNumber : String
  billId : String
  fetchOracle : String → Except TransportError FetchResponse
  writeOracle : String → List Nat → Option String

/-- `_baseURL` of `NicorGasBillDownloader`. -/
def baseURL : String := "https://customerportal.southerncompany.com"

/-- The request URL built by `requestBill` (downloader.mjs line 105). -/
def requestUrl (billId : String) (billDate : JsDate) : String :=
  baseURL ++ "/Billing/ViewBill?BillDate=" ++ formatMMDDYYYY billDate
    ++ "&BillId=" ++ billId ++ "&BillRoutingNum=1"

/-- `NicorGasBillDownloader.requestBill(billDate)` (downloader.mjs lines
103–143).  The `try` block issues the fetch; on the redirect-to-`Generic`
signal it throws an `AuthenticationError`, which the catch rethrows; a PDF
content type with a non-null body resolves with the body; otherwise the
method returns a bare `Promise.reject()`, whose `undefined` reason escapes
the `try`/`catch` because it is returned, not awaited; any error thrown
inside the `try` (e.g. a transport failure of `fetch`) is replaced by a
fresh generic `Error`. -/
def requestBill (env : Env) (billDate : JsDate) : Except JsError (List Nat) :=
  match env.fetchOracle (requestUrl env.billId billDate) with
  | .error _ => .error (.genericError "An unknown error occurred.")
  | .ok response =>
    if response.redirected && strContains response.url "Generic" then
      .error (.authenticationError
        "Unable to make the bill request. An authentication issue has likely occured.")
    else if response.contentType == some "application/pdf" then
      match response.body with
      | some b => .ok b
      | none => .error .undefinedReject
    else .error .undefinedReject

/-- `PollingOptions` (src/src/downloader-options.mjs) with its field
defaults 14 and 20. -/
structure PollingOptions where
  startTryingOn : Int := 14
  stopTryingOn : Int := 20
deriving DecidableEq, Repr

/-- `path.resolve(saveDirectory, name)`: only the file-name component
matters to the claims, so the join is modelled as concatenation with a
separator. -/
def pathResolve (saveDirectory name : String) : String :=
  saveDirectory ++ "/" ++ name

/-- The observable side effects of one `tryDownloadingBill` call: the
candidate dates probed (one `requestBill` call each, in order), the save
paths passed to `fs.writeFile` (attempted writes), and the save paths whose
write succeeded. -/
structure RunTrace where
  probes : List JsDate
  writesAttempted : List String
  writesSucceeded : List String
deriving DecidableEq, Repr

/-- The body of the `for (let day = startTryingOn; day <= stopTryingOn; day++)`
loop of `tryDownloadingBill` (downloader.mjs lines 72–92), over the list of
remaining day values.  Each iteration probes `new Date(issuedYear,
issuedMonth, day)`; on a resolved `requestBill` it writes the PDF and
returns; the catch clause returns on an `AuthenticationError` and swallows
every other thrown value (including a write failure), continuing with the
next day; an exhausted list reaches the trailing `throw new Error(...)`. -/
def scanDays (env : Env) (issuedYear : Int) (issuedMonth : Nat)
    (saveDirectory exhaustedMessage : String) :
    List Int → Except JsError Unit × RunTrace
  | [] => (.error (.genericError exhaustedMessage), ⟨[], [], []⟩)
  | day :: rest =>
    let estimatedBillDate := mkDate issuedYear issuedMonth day
    match requestBill env estimatedBillDate with
    | .ok stream =>
      let fileName := formatYYYYMMDD estimatedBillDate
      let savePath :=
        pathResolve saveDirectory (env.accountNumber ++ "-" ++ fileName ++ ".pdf")
      match env.writeOracle savePath stream with
      | none => (.ok (), ⟨[estimatedBillDate], [savePath], [savePath]⟩)
      | some _ =>
        let next :=
          scanDays env issuedYear issuedMonth saveDirectory exhaustedMessage rest
        (next.1, ⟨estimatedBillDate :: next.2.probes,
          savePath :: next.2.writesAttempted, next.2.writesSucceeded⟩)
    | .error e =>
      if e.isAuthError then (.ok (), ⟨[estimatedBillDate], [], []⟩)
      else
        let next :=
          scanDays env issuedYear issuedMonth saveDirectory exhaustedMessage rest
        (next.1, ⟨estimatedBillDate :: next.2.probes,
          next.2.writesAttempted, next.2.writesSucceeded⟩)

/-- The ascending list of `Int` values a JavaScript
`for (let day = a; day <= b; day++)` loop iterates over. -/
def intRange (a b : Int) : List Int :=
  (List.range (b + 1 - a).toNat).map (fun i : Nat => a + (i : Int))

/-- The exhaustion message thrown at the bottom of `tryDownloadingBill`. -/
def exhaustedMessageFor (issuedDate : JsDate) : String :=
  "Unable to find and/or download a bill for the month of "
    ++ formatMMYYYY issuedDate

/-- `NicorGasBillDownloader.tryDownloadingBill(issuedDate, saveDirectory,
pollingOptions)` (downloader.mjs lines 57–96).  `Object.assign(new
PollingOptions(), pollingOptions)` resolves the options against the
defaults; both window bounds are clamped by
`Math.min(31, Math.max(0, ·))`; then the day loop runs. -/
def tryDownloadingBill (env : Env) (issuedDate : JsDate)
    (saveDirectory : String) (pollingOptions : Option PollingOptions) :
    Except JsError Unit × RunTrace :=
  let issuedYear := issuedDate.year
  let issuedMonth := issuedDate.month
  let options := pollingOptions.getD {}
  let startTryingOn := min 31 (max 0 options.startTryingOn)
  let stopTryingOn := min 31 (max 0 options.stopTryingOn)
  scanDays env issuedYear issuedMonth saveDirectory
    (exhaustedMessageFor issuedDate) (intRange startTryingOn stopTryingOn)

/-- The month index `12 * year + month` of a date (total order on calendar
months). -/
def monthIndex (d : JsDate) : Int := d.year * 12 + d.month

/-- The first day of the calendar month with index `i`. -/
def monthStart (i : Int) : JsDate := ⟨i / 12, (i % 12).toNat, 1⟩

/-- date-fns `eachMonthOfInterval({start, end})` for a well-formed interval
(`start ≤ end` at month granularity): the starts of every calendar month
from `start`'s month to `end`'s month, in chronological order.  Date
arithmetic is an external trusted utility of the repository. -/
def eachMonthOfInterval (start finish : JsDate) : List JsDate :=
  if monthIndex start ≤ monthIndex finish then
    (List.range (monthIndex finish + 1 - monthIndex start).toNat).map
      (fun i : Nat => monthStart (monthIndex start + (i : Int)))
  else []

/-- `NicorGasBillDownloader.tryBulkDownload(from, to, saveDirectory,
pollingOptions)` (downloader.mjs lines 48–55): enumerate the months of the
interval and call `tryDownloadingBill` once per month inside
`try { ... } catch {}`, so every per-month result is swallowed and the
method itself always resolves.  The trace records each month attempted
together with that month's (swallowed) result and run trace. -/
def tryBulkDownload (env : Env) (start finish : JsDate)
    (saveDirectory : String) (pollingOptions : Option PollingOptions) :
    Except JsError Unit × List (JsDate × (Except JsError Unit × RunTrace)) :=
  let months := eachMonthOfInterval start finish
  (.ok (), months.map (fun m =>
    (m, tryDownloadingBill env m saveDirectory pollingOptions)))

/-- The tagged outcome of one probe, as the scan loop discriminates the
result of `requestBill`: a resolved promise is a found document, a thrown
`AuthenticationError` stops the scan, every other rejection continues it. -/
inductive ProbeOutcome where
  | documentFound (bytes : List Nat)
  | notFound
  | authenticationFailed
deriving DecidableEq, Repr

/-- The probe outcome for a candidate date, read off the `requestBill`
result exactly the way the `try`/`catch` of the scan loop does. -/
def probeOutcome (env : Env) (billDate : JsDate) : ProbeOutcome :=
  match requestBill env billDate with
  | .ok b => .documentFound b
  | .error e => if e.isAuthError then .authenticationFailed else .notFound

/-- Spec-side classifier, written from the spec's words (§4.1 step 4 and
§6): AuthenticationFailed iff the response was redirected and the final URL
contains "Generic"; otherwise DocumentFound iff the content type is
`application/pdf` and a body is present; otherwise NotFound, which also
covers every error of the fetch itself other than the authentication
signal. -/
def specClassifyFetch (r : Except TransportError FetchResponse) : ProbeOutcome :=
  match r with
  | .error _ => .notFound
  | .ok response =>
    if response.redirected && strContains response.url "Generic" then
      .authenticationFailed
    else
      match response.body with
      | some b =>
        if response.contentType == some "application/pdf" then .documentFound b
        else .notFound
      | none => .notFound

/-- The derived file naming convention of the spec:
`{accountId}-{isoDate:yyyy-MM-dd}.{ext}` with extension `pdf`, where
`isoDate` is the resolved bill date. -/
def mkFileName (accountId : String) (isoDate : JsDate) : String :=
  accountId ++ "-" ++ formatYYYYMMDD isoDate ++ ".pdf"

/-- A response that is neither the authentication signal nor a PDF. -/
def respNotFound : FetchResponse := ⟨false, "", none, none⟩

/-- A PDF response carrying a body. -/
def respFound : FetchResponse :=
  ⟨false, "https://customerportal.southerncompany.com/Billing/ViewBill",
   some "application/pdf", some [37, 80, 68, 70]⟩

/-- The authentication-failure signal: a redirect whose final URL contains
"Generic". -/
def respAuthRedirect : FetchResponse :=
  ⟨true, "https://customerportal.southerncompany.com/Error/Generic", none, none⟩

/-- An environment whose every probe misses and whose writes succeed. -/
def envNotFound : Env :=
  ⟨"9001234567", "5550001111", fun _ => .ok respNotFound, fun _ _ => none⟩

/-- An environment whose every fetch returns the authentication signal. -/
def envAllAuth : Env :=
  ⟨"9001234567", "5550001111", fun _ => .ok respAuthRedirect, fun _ _ => none⟩

/-- An environment whose every fetch returns a PDF and whose writes
succeed. -/
def envAllFound : Env :=
  ⟨"9001234567", "5550001111", fun _ => .ok respFound, fun _ _ => none⟩

/-- An environment where only the probe for 2024-01-15 finds a PDF and
writes succeed. -/
def envFoundDay15 : Env :=
  ⟨"9001234567", "5550001111",
   fun u => if u = requestUrl "5550001111" ⟨2024, 0, 15⟩ then .ok respFound
            else .ok respNotFound,
   fun _ _ => none⟩

/-- An environment where only the probe for 2024-01-15 hits the
authentication signal. -/
def envAuthDay15 : Env :=
  ⟨"9001234567", "5550001111",
   fun u => if u = requestUrl "5550001111" ⟨2024, 0, 15⟩ then .ok respAuthRedirect
            else .ok respNotFound,
   fun _ _ => none⟩

/-- An environment where the probe for 2024-01-14 finds a PDF but every
file-system write fails. -/
def envWriteFail : Env :=
  ⟨"9001234567", "5550001111",
   fun u => if u = requestUrl "5550001111" ⟨2024, 0, 14⟩ then .ok respFound
            else .ok respNotFound,
   fun _ _ => some "EACCES: permission denied"⟩

/-- An environment whose every fetch throws a transport error. -/
def envTransport : Env :=
  ⟨"9001234567", "5550001111", fun _ => .error ⟨"ECONNRESET"⟩, fun _ _ => none⟩

/-! ## General lemmas about the scan loop -/

theorem probeOutcome_found_inv (env : Env) (d : JsDate) (b : List Nat)
    (h : probeOutcome env d = .documentFound b) : requestBill env d = .ok b := by
  unfold probeOutcome at h
  cases hrb : requestBill env d with
  | ok b' => rw [hrb] at h; simp at h; rw [h]
  | error e =>
    rw [hrb] at h
    cases he : e.isAuthError <;> simp [he] at h

theorem probeOutcome_notFound_inv (env : Env) (d : JsDate)
    (h : probeOutcome env d = .notFound) :
    ∃ e, requestBill env d = .error e ∧ e.isAuthError = false := by
  unfold probeOutcome at h
  cases hrb : requestBill env d with
  | ok b' => rw [hrb] at h; simp at h
  | error e =>
    rw [hrb] at h
    cases he : e.isAuthError with
    | true => simp [he] at h
    | false => exact ⟨e, rfl, he⟩

theorem probeOutcome_auth_inv (env : Env) (d : JsDate)
    (h : probeOutcome env d = .authenticationFailed) :
    ∃ e, requestBill env d = .error e ∧ e.isAuthError = true := by
  unfold probeOutcome at h
  cases hrb : requestBill env d with
  | ok b' => rw [hrb] at h; simp at h
  | error e =>
    rw [hrb] at h
    cases he : e.isAuthError with
    | true => exact ⟨e, rfl, he⟩
    | false => simp [he] at h

theorem scanDays_cons_notFound (env : Env) (y : Int) (m : Nat)
    (dir msg : String) (day : Int) (rest : List Int)
    (h : probeOutcome env (mkDate y m day) = .notFound) :
    scanDays env y m dir msg (day :: rest) =
      ((scanDays env y m dir msg rest).1,
       ⟨mkDate y m day :: (scanDays env y m dir msg rest).2.probes,
        (scanDays env y m dir msg rest).2.writesAttempted,
        (scanDays env y m dir msg rest).2.writesSucceeded⟩) := by
  obtain ⟨e, hrb, he⟩ := probeOutcome_notFound_inv env (mkDate y m day) h
  simp [scanDays, hrb, he]

theorem scanDays_cons_found_ok (env : Env) (y : Int) (m : Nat)
    (dir msg : String) (day : Int) (rest : List Int) (bytes : List Nat)
    (h : probeOutcome env (mkDate y m day) = .documentFound bytes)
    (hw : env.writeOracle
      (pathResolve dir
        (env.accountNumber ++ "-" ++ formatYYYYMMDD (mkDate y m day) ++ ".pdf"))
      bytes = none) :
    scanDays env y m dir msg (day :: rest) =
      (.ok (),
       ⟨[mkDate y m day],
        [pathResolve dir
          (env.accountNumber ++ "-" ++ formatYYYYMMDD (mkDate y m day) ++ ".pdf")],
        [pathResolve dir
          (env.accountNumber ++ "-" ++ formatYYYYMMDD (mkDate y m day) ++ ".pdf")]⟩) := by
  have hrb := probeOutcome_found_inv env (mkDate y m day) bytes h
  simp [scanDays, hrb, hw]

theorem scanDays_cons_found_writefail (env : Env) (y : Int) (m : Nat)
    (dir msg : String) (day : Int) (rest : List Int) (bytes : List Nat)
    (ioMsg : String)
    (h : probeOutcome env (mkDate y m day) = .documentFound bytes)
    (hw : env.writeOracle
      (pathResolve dir
        (env.accountNumber ++ "-" ++ formatYYYYMMDD (mkDate y m day) ++ ".pdf"))
      bytes = some ioMsg) :
    scanDays env y m dir msg (day :: rest) =
      ((scanDays env y m dir msg rest).1,
       ⟨mkDate y m day :: (scanDays env y m dir msg rest).2.probes,
        pathResolve dir
          (env.accountNumber ++ "-" ++ formatYYYYMMDD (mkDate y m day) ++ ".pdf")
          :: (scanDays env y m dir msg rest).2.writesAttempted,
        (scanDays env y m dir msg rest).2.writesSucceeded⟩) := by
  have hrb := probeOutcome_found_inv env (mkDate y m day) bytes h
  simp [scanDays, hrb, hw]

theorem scanDays_cons_auth (env : Env) (y : Int) (m : Nat)
    (dir msg : String) (day : Int) (rest : List Int)
    (h : probeOutcome env (mkDate y m day) = .authenticationFailed) :
    scanDays env y m dir msg (day :: rest) =
      (.ok (), ⟨[mkDate y m day], [], []⟩) := by
  obtain ⟨e, hrb, he⟩ := probeOutcome_auth_inv env (mkDate y m day) h
  simp [scanDays, hrb, he]

theorem scanDays_append_notFound (env : Env) (y : Int) (m : Nat)
    (dir msg : String) (pre rest : List Int)
    (hpre : ∀ d ∈ pre, probeOutcome env (mkDate y m d) = .notFound) :
    scanDays env y m dir msg (pre ++ rest) =
      ((scanDays env y m dir msg rest).1,
       ⟨pre.map (mkDate y m) ++ (scanDays env y m dir msg rest).2.probes,
        (scanDays env y m dir msg rest).2.writesAttempted,
        (scanDays env y m dir msg rest).2.writesSucceeded⟩) := by
  induction pre with
  | nil => simp
  | cons day pre ih =>
    have hd := hpre day (List.mem_cons_self day pre)
    have hrest : ∀ d ∈ pre, probeOutcome env (mkDate y m d) = .notFound :=
      fun d hdm => hpre d (List.mem_cons_of_mem _ hdm)
    rw [List.cons_append, scanDays_cons_notFound env y m dir msg day (pre ++ rest) hd,
      ih hrest]
    simp

theorem scanDays_all_notFound (env : Env) (y : Int) (m : Nat)
    (dir msg : String) (days : List Int)
    (h : ∀ d ∈ days, probeOutcome env (mkDate y m d) = .notFound) :
    scanDays env y m dir msg days =
      (.error (.genericError msg), ⟨days.map (mkDate y m), [], []⟩) := by
  have := scanDays_append_notFound env y m dir msg days [] h
  simpa [scanDays] using this

theorem tryDownloadingBill_eq_scan (env : Env) (issued : JsDate) (dir : String)
    (opts : PollingOptions) :
    tryDownloadingBill env issued dir (some opts) =
      scanDays env issued.year issued.month dir (exhaustedMessageFor issued)
        (intRange (min 31 (max 0 opts.startTryingOn))
          (min 31 (max 0 opts.stopTryingOn))) := rfl

theorem intRange_eq_nil (a b : Int) (h : b < a) : intRange a b = [] := by
  unfold intRange
  rw [Int.toNat_of_nonpos (by omega)]
  rfl

theorem intRange_self (a : Int) : intRange a a = [a] := by
  unfold intRange
  have h1 : (a + 1 - a).toNat = 1 := by omega
  rw [h1]
  simp [List.range_succ]

theorem probeOutcome_envNotFound (d : JsDate) :
    probeOutcome envNotFound d = .notFound := rfl

theorem monthIndex_monthStart (i : Int) : monthIndex (monthStart i) = i := by
  unfold monthIndex monthStart
  simp only
  omega

theorem requestBill_of_transport (env : Env) (d : JsDate) (t : TransportError)
    (hf : env.fetchOracle (requestUrl env.billId d) = .error t) :
    requestBill env d = .error (.genericError "An unknown error occurred.") := by
  unfold requestBill
  rw [hf]

theorem requestBill_of_auth (env : Env) (d : JsDate) (response : FetchResponse)
    (hf : env.fetchOracle (requestUrl env.billId d) = .ok response)
    (hr : (response.redirected && strContains response.url "Generic") = true) :
    requestBill env d = .error (.authenticationError
      "Unable to make the bill request. An authentication issue has likely occured.") := by
  unfold requestBill
  rw [hf]
  simp [hr]

theorem requestBill_of_pdf (env : Env) (d : JsDate) (response : FetchResponse)
    (b : List Nat)
    (hf : env.fetchOracle (requestUrl env.billId d) = .ok response)
    (hr : (response.redirected && strContains response.url "Generic") = false)
    (hct : (response.contentType == some "application/pdf") = true)
    (hb : response.body = some b) :
    requestBill env d = .ok b := by
  unfold requestBill
  rw [hf]
  simp [hr, hct, hb]

theorem requestBill_of_miss (env : Env) (d : JsDate) (response : FetchResponse)
    (hf : env.fetchOracle (requestUrl env.billId d) = .ok response)
    (hr : (response.redirected && strContains response.url "Generic") = false)
    (h : (response.contentType == some "application/pdf") = false
      ∨ response.body = none) :
    requestBill env d = .error .undefinedReject := by
  unfold requestBill
  rw [hf]
  rcases h with hct | hb
  · simp [hr, hct]
  · cases hct : response.contentType == some "application/pdf" <;>
      simp [hr, hct, hb]

/-! ## Claim theorems -/

/-- C6: for all caller-supplied `(startTryingOn, stopTryingOn)` values,
including negative values and values greater than 31, the day window the
scan iterates equals the inputs clamped into `[0, 31]` (lower bound raised
to 0 by `Math.max`, upper bound lowered to 31 by `Math.min`), before any
probe is issued: with an environment where every probe misses, the probed
candidate dates are exactly the clamped range, in order. -/
theorem tryDownloadingBill_window_clamped (s t : Int) (issued : JsDate)
    (dir : String) :
    (tryDownloadingBill envNotFound issued dir (some ⟨s, t⟩)).2.probes
      = (intRange (min 31 (max 0 s)) (min 31 (max 0 t))).map
          (mkDate issued.year issued.month) := by
  rw [tryDownloadingBill_eq_scan,
    scanDays_all_notFound envNotFound issued.year issued.month dir
      (exhaustedMessageFor issued) _ (fun d _ => probeOutcome_envNotFound _)]

/-- C7: for every window whose clamped stop day is strictly below its
clamped start day, `tryDownloadingBill` issues zero probes, attempts no
write, and throws the exhaustion error naming the searched month
(`MM/yyyy`). -/
theorem tryDownloadingBill_empty_window (env : Env) (issued : JsDate)
    (dir : String) (opts : PollingOptions)
    (h : min 31 (max 0 opts.stopTryingOn) < min 31 (max 0 opts.startTryingOn)) :
    tryDownloadingBill env issued dir (some opts) =
      (.error (.genericError
        ("Unable to find and/or download a bill for the month of "
          ++ formatMMYYYY issued)),
       ⟨[], [], []⟩) := by
  rw [tryDownloadingBill_eq_scan, intRange_eq_nil _ _ h]
  rfl

theorem tryDownloadingBill_empty_window_witness :
    tryDownloadingBill envNotFound ⟨2024, 0, 1⟩ "bills" (some ⟨20, 14⟩) =
      (.error (.genericError
        ("Unable to find and/or download a bill for the month of "
          ++ formatMMYYYY ⟨2024, 0, 1⟩)),
       ⟨[], [], []⟩) :=
  tryDownloadingBill_empty_window envNotFound ⟨2024, 0, 1⟩ "bills" ⟨20, 14⟩
    (by decide)

/-- C3: for a requested date interval (start month ≤ end month),
`tryBulkDownload` resolves (never raises), attempts `tryDownloadingBill`
exactly once for every enumerated month of the interval, in chronological
order, regardless of the fetch and write oracles — so any single month's
failure, of any kind, never prevents the remaining months from being
attempted. -/
theorem tryBulkDownload_attempts_every_month (env : Env)
    (start finish : JsDate) (dir : String) (opts : Option PollingOptions)
    (h : monthIndex start ≤ monthIndex finish) :
    (tryBulkDownload env start finish dir opts).1 = .ok () ∧
    (tryBulkDownload env start finish dir opts).2.map Prod.fst
      = eachMonthOfInterval start finish ∧
    (eachMonthOfInterval start finish).length
      = (monthIndex finish + 1 - monthIndex start).toNat ∧
    List.Chain' (fun a b => monthIndex a < monthIndex b)
      (eachMonthOfInterval start finish) ∧
    ∀ p ∈ (tryBulkDownload env start finish dir opts).2,
      p.2 = tryDownloadingBill env p.1 dir opts := by
  refine ⟨rfl, ?_, ?_, ?_, ?_⟩
  · show ((eachMonthOfInterval start finish).map _).map Prod.fst = _
    rw [List.map_map,
      show (Prod.fst ∘ fun m => (m, tryDownloadingBill env m dir opts)) = id
        from rfl,
      List.map_id]
  · unfold eachMonthOfInterval
    rw [if_pos h, List.length_map, List.length_range]
  · unfold eachMonthOfInterval
    rw [if_pos h]
    refine List.Pairwise.chain' (List.Pairwise.map _ ?_ (List.pairwise_lt_range _))
    intro a b hab
    rw [monthIndex_monthStart, monthIndex_monthStart]
    omega
  · intro p hp
    simp only [tryBulkDownload, List.mem_map] at hp
    obtain ⟨m, _, rfl⟩ := hp
    rfl

theorem tryBulkDownload_attempts_every_month_witness :
    (tryBulkDownload envNotFound ⟨2024, 10, 5⟩ ⟨2025, 1, 20⟩ "bills" none).1
        = .ok () ∧
    (tryBulkDownload envNotFound ⟨2024, 10, 5⟩ ⟨2025, 1, 20⟩ "bills" none).2.map
        Prod.fst = eachMonthOfInterval ⟨2024, 10, 5⟩ ⟨2025, 1, 20⟩ ∧
    (eachMonthOfInterval ⟨2024, 10, 5⟩ ⟨2025, 1, 20⟩).length
      = (monthIndex ⟨2025, 1, 20⟩ + 1 - monthIndex ⟨2024, 10, 5⟩).toNat ∧
    List.Chain' (fun a b => monthIndex a < monthIndex b)
      (eachMonthOfInterval ⟨2024, 10, 5⟩ ⟨2025, 1, 20⟩) ∧
    ∀ p ∈ (tryBulkDownload envNotFound ⟨2024, 10, 5⟩ ⟨2025, 1, 20⟩ "bills"
        none).2,
      p.2 = tryDownloadingBill envNotFound p.1 "bills" none :=
  tryBulkDownload_attempts_every_month envNotFound ⟨2024, 10, 5⟩ ⟨2025, 1, 20⟩
    "bills" none (by decide)

/-- C5: for every fetch response, the scan's view of a probe is exactly one
of three outcomes, with the priority order of the source: the
authentication signal (`redirected` and final URL containing "Generic")
first; else a found document when the content type is `application/pdf` and
a body is present; else not-found, covering every other status/content-type
combination and every non-authentication error — `probeOutcome`, read off
`requestBill` the way the scan loop reads it, coincides with the spec-side
classifier `specClassifyFetch` on every fetch result. -/
theorem probeOutcome_matches_spec_classifier (env : Env) (d : JsDate) :
    probeOutcome env d
      = specClassifyFetch (env.fetchOracle (requestUrl env.billId d)) := by
  cases hf : env.fetchOracle (requestUrl env.billId d) with
  | error t =>
    unfold probeOutcome
    rw [requestBill_of_transport env d t hf]
    rfl
  | ok response =>
    by_cases hr : (response.redirected && strContains response.url "Generic") = true
    · unfold probeOutcome
      rw [requestBill_of_auth env d response hf hr]
      unfold specClassifyFetch
      simp [hr, JsError.isAuthError]
    · rw [Bool.not_eq_true] at hr
      cases hb : response.body with
      | some b =>
        cases hct : response.contentType == some "application/pdf" with
        | true =>
          unfold probeOutcome
          rw [requestBill_of_pdf env d response b hf hr hct hb]
          unfold specClassifyFetch
          simp [hr, hb, hct]
        | false =>
          unfold probeOutcome
          rw [requestBill_of_miss env d response hf hr (Or.inl hct)]
          unfold specClassifyFetch
          simp [hr, hb, hct, JsError.isAuthError]
      | none =>
        unfold probeOutcome
        rw [requestBill_of_miss env d response hf hr (Or.inr hb)]
        unfold specClassifyFetch
        simp [hr, hb, JsError.isAuthError]

/-- C10: every rejection of `requestBill` is one of exactly three values —
the `AuthenticationError` with its fixed message (and that exactly when the
fetch response was redirected with a final URL containing "Generic"), the
reason `undefined` of the bare `Promise.reject()`, or a fresh generic
`Error` with message "An unknown error occurred."; in particular when the
fetch itself throws, the caller observes only the generic error, never the
underlying transport error. -/
theorem requestBill_rejection_values (env : Env) (d : JsDate) :
    (∀ e, requestBill env d = .error e →
      e = .authenticationError
          "Unable to make the bill request. An authentication issue has likely occured."
        ∨ e = .undefinedReject
        ∨ e = .genericError "An unknown error occurred.") ∧
    (requestBill env d = .error (.authenticationError
        "Unable to make the bill request. An authentication issue has likely occured.")
      ↔ ∃ response, env.fetchOracle (requestUrl env.billId d) = .ok response
          ∧ (response.redirected && strContains response.url "Generic") = true) ∧
    (∀ t, env.fetchOracle (requestUrl env.billId d) = .error t →
      requestBill env d = .error (.genericError "An unknown error occurred.")) := by
  cases hf : env.fetchOracle (requestUrl env.billId d) with
  | error t =>
    have hreq := requestBill_of_transport env d t hf
    refine ⟨?_, ?_, fun t' _ => hreq⟩
    · intro e he
      rw [hreq] at he
      simp only [Except.error.injEq] at he
      exact Or.inr (Or.inr he.symm)
    · rw [hreq]
      constructor
      · intro he
        simp at he
      · rintro ⟨response', hresp, _⟩
        simp at hresp
  | ok response =>
    by_cases hr : (response.redirected && strContains response.url "Generic") = true
    · have hreq := requestBill_of_auth env d response hf hr
      refine ⟨?_, ?_, ?_⟩
      · intro e he
        rw [hreq] at he
        simp only [Except.error.injEq] at he
        exact Or.inl he.symm
      · rw [hreq]
        exact ⟨fun _ => ⟨response, rfl, hr⟩, fun _ => rfl⟩
      · intro t ht
        simp at ht
    · rw [Bool.not_eq_true] at hr
      have hauth : ¬ (requestBill env d = .error (.authenticationError
          "Unable to make the bill request. An authentication issue has likely occured."))
          ∧ ∀ e, requestBill env d = .error e →
              e = .undefinedReject ∨ ∃ b, requestBill env d = .ok b := by
        cases hb : response.body with
        | some b =>
          cases hct : response.contentType == some "application/pdf" with
          | true =>
            have hreq := requestBill_of_pdf env d response b hf hr hct hb
            rw [hreq]
            exact ⟨by simp, fun e he => by simp at he⟩
          | false =>
            have hreq := requestBill_of_miss env d response hf hr (Or.inl hct)
            rw [hreq]
            refine ⟨by simp, fun e he => ?_⟩
            simp only [Except.error.injEq] at he
            exact Or.inl he.symm
        | none =>
          have hreq := requestBill_of_miss env d response hf hr (Or.inr hb)
          rw [hreq]
          refine ⟨by simp, fun e he => ?_⟩
          simp only [Except.error.injEq] at he
          exact Or.inl he.symm
      refine ⟨?_, ?_, ?_⟩
      · intro e he
        rcases hauth.2 e he with h1 | ⟨b, hb⟩
        · exact Or.inr (Or.inl h1)
        · rw [hb] at he
          simp at he
      · constructor
        · intro he
          exact absurd he hauth.1
        · rintro ⟨response', hresp, hsig⟩
          simp only [Except.ok.injEq] at hresp
          rw [← hresp] at hsig
          rw [hsig] at hr
          simp at hr
      · intro t ht
        simp at ht

theorem requestBill_rejection_values_witness :
    requestBill envTransport ⟨2024, 0, 15⟩
      = .error (.genericError "An unknown error occurred.") :=
  (requestBill_rejection_values envTransport ⟨2024, 0, 15⟩).2.2
    ⟨"ECONNRESET"⟩ rfl

/-- C4: for every probe sequence in which the `(pre.length + 1)`-th
candidate day of the window (window = `pre ++ day :: rest`) is the first to
yield a found document, and the storage write succeeds, the per-month
locate issues exactly `pre.length + 1` probes (none for the remaining
`rest`), performs exactly one save — whose path carries that day's resolved
date — and returns normally; no probing and no saving occurs after the
first success. -/
theorem tryDownloadingBill_first_success (env : Env) (issued : JsDate)
    (dir : String) (opts : PollingOptions) (pre rest : List Int) (day : Int)
    (bytes : List Nat)
    (hwin : intRange (min 31 (max 0 opts.startTryingOn))
        (min 31 (max 0 opts.stopTryingOn)) = pre ++ day :: rest)
    (hpre : ∀ d ∈ pre,
      probeOutcome env (mkDate issued.year issued.month d) = .notFound)
    (hfound : probeOutcome env (mkDate issued.year issued.month day)
        = .documentFound bytes)
    (hwrite : env.writeOracle
        (pathResolve dir (env.accountNumber ++ "-"
          ++ formatYYYYMMDD (mkDate issued.year issued.month day) ++ ".pdf"))
        bytes = none) :
    tryDownloadingBill env issued dir (some opts) =
      (.ok (),
       ⟨(pre ++ [day]).map (mkDate issued.year issued.month),
        [pathResolve dir (env.accountNumber ++ "-"
          ++ formatYYYYMMDD (mkDate issued.year issued.month day) ++ ".pdf")],
        [pathResolve dir (env.accountNumber ++ "-"
          ++ formatYYYYMMDD (mkDate issued.year issued.month day) ++ ".pdf")]⟩)
    ∧ (tryDownloadingBill env issued dir (some opts)).2.probes.length
        = pre.length + 1
    ∧ (tryDownloadingBill env issued dir (some opts)).2.writesSucceeded.length
        = 1 := by
  have hmain : tryDownloadingBill env issued dir (some opts) =
      (.ok (),
       ⟨(pre ++ [day]).map (mkDate issued.year issued.month),
        [pathResolve dir (env.accountNumber ++ "-"
          ++ formatYYYYMMDD (mkDate issued.year issued.month day) ++ ".pdf")],
        [pathResolve dir (env.accountNumber ++ "-"
          ++ formatYYYYMMDD (mkDate issued.year issued.month day) ++ ".pdf")]⟩) := by
    rw [tryDownloadingBill_eq_scan, hwin,
      scanDays_append_notFound env issued.year issued.month dir
        (exhaustedMessageFor issued) pre (day :: rest) hpre,
      scanDays_cons_found_ok env issued.year issued.month dir
        (exhaustedMessageFor issued) day rest bytes hfound hwrite]
    simp
  exact ⟨hmain, by rw [hmain]; simp, by rw [hmain]; rfl⟩

theorem tryDownloadingBill_first_success_witness :
    (tryDownloadingBill envFoundDay15 ⟨2024, 0, 1⟩ "bills" (some ⟨14, 16⟩) =
      (.ok (),
       ⟨([14] ++ [15]).map (mkDate 2024 0),
        [pathResolve "bills" (envFoundDay15.accountNumber ++ "-"
          ++ formatYYYYMMDD (mkDate 2024 0 15) ++ ".pdf")],
        [pathResolve "bills" (envFoundDay15.accountNumber ++ "-"
          ++ formatYYYYMMDD (mkDate 2024 0 15) ++ ".pdf")]⟩)
    ∧ (tryDownloadingBill envFoundDay15 ⟨2024, 0, 1⟩ "bills"
        (some ⟨14, 16⟩)).2.probes.length = [14].length + 1
    ∧ (tryDownloadingBill envFoundDay15 ⟨2024, 0, 1⟩ "bills"
        (some ⟨14, 16⟩)).2.writesSucceeded.length = 1) :=
  tryDownloadingBill_first_success envFoundDay15 ⟨2024, 0, 1⟩ "bills"
    ⟨14, 16⟩ [14] [16] 15 [37, 80, 68, 70]
    (by decide) (by decide) (by decide) (by decide)

/-- C9: for every successful locate, the one successful write's file name
is `{accountId}-{yyyy-MM-dd}.pdf` built from the account identifier and the
resolved bill date — the (normalized) date of the day that produced the
match, not the requested month — so the name is the deterministic function
`mkFileName` of exactly those two values. -/
theorem tryDownloadingBill_save_name (env : Env) (issued : JsDate)
    (dir : String) (opts : PollingOptions) (pre rest : List Int) (day : Int)
    (bytes : List Nat)
    (hwin : intRange (min 31 (max 0 opts.startTryingOn))
        (min 31 (max 0 opts.stopTryingOn)) = pre ++ day :: rest)
    (hpre : ∀ d ∈ pre,
      probeOutcome env (mkDate issued.year issued.month d) = .notFound)
    (hfound : probeOutcome env (mkDate issued.year issued.month day)
        = .documentFound bytes)
    (hwrite : env.writeOracle
        (pathResolve dir (env.accountNumber ++ "-"
          ++ formatYYYYMMDD (mkDate issued.year issued.month day) ++ ".pdf"))
        bytes = none) :
    (tryDownloadingBill env issued dir (some opts)).2.writesSucceeded
      = [pathResolve dir
          (mkFileName env.accountNumber
            (mkDate issued.year issued.month day))] := by
  rw [tryDownloadingBill_eq_scan, hwin,
    scanDays_append_notFound env issued.year issued.month dir
      (exhaustedMessageFor issued) pre (day :: rest) hpre,
    scanDays_cons_found_ok env issued.year issued.month dir
      (exhaustedMessageFor issued) day rest bytes hfound hwrite]
  rfl

theorem tryDownloadingBill_save_name_witness :
    (tryDownloadingBill envFoundDay15 ⟨2024, 0, 1⟩ "bills"
        (some ⟨14, 16⟩)).2.writesSucceeded
      = [pathResolve "bills"
          (mkFileName envFoundDay15.accountNumber (mkDate 2024 0 15))] :=
  tryDownloadingBill_save_name envFoundDay15 ⟨2024, 0, 1⟩ "bills"
    ⟨14, 16⟩ [14] [16] 15 [37, 80, 68, 70]
    (by decide) (by decide) (by decide) (by decide)

/-- C1 counterexample: with every probe hitting the authentication signal,
`tryDownloadingBill` stops after one probe but returns normally with
`.ok ()` — exactly the value an entirely successful run returns — so the
caller cannot distinguish the authentication failure from success; the
claim that the returned failure is distinguishable from success is false. -/
theorem tryDownloadingBill_auth_counterexample :
    (tryDownloadingBill envAllAuth ⟨2024, 0, 1⟩ "bills" none).1 = .ok () ∧
    (tryDownloadingBill envAllFound ⟨2024, 0, 1⟩ "bills" none).1 = .ok () ∧
    (tryDownloadingBill envAllAuth ⟨2024, 0, 1⟩ "bills" none).1
      = (tryDownloadingBill envAllFound ⟨2024, 0, 1⟩ "bills" none).1 ∧
    (tryDownloadingBill envAllAuth ⟨2024, 0, 1⟩ "bills" none).2.probes
      = [⟨2024, 0, 14⟩] :=
  ⟨rfl, rfl, rfl, rfl⟩

/-- C1 (amended): when a probe within the window is classified as the
authentication failure, the per-month locate stops immediately — it issues
no probe for any later day of the window, even days that would have yielded
a document — performs no save, and returns normally with `.ok ()`; this
return is distinguishable from window exhaustion (a thrown error) but not
from success, because the `catch` clause merely logs the
`AuthenticationError` and returns. -/
theorem tryDownloadingBill_auth_stops (env : Env) (issued : JsDate)
    (dir : String) (opts : PollingOptions) (pre rest : List Int) (day : Int)
    (hwin : intRange (min 31 (max 0 opts.startTryingOn))
        (min 31 (max 0 opts.stopTryingOn)) = pre ++ day :: rest)
    (hpre : ∀ d ∈ pre,
      probeOutcome env (mkDate issued.year issued.month d) = .notFound)
    (hauth : probeOutcome env (mkDate issued.year issued.month day)
        = .authenticationFailed) :
    tryDownloadingBill env issued dir (some opts)
      = (.ok (), ⟨(pre ++ [day]).map (mkDate issued.year issued.month),
          [], []⟩) := by
  rw [tryDownloadingBill_eq_scan, hwin,
    scanDays_append_notFound env issued.year issued.month dir
      (exhaustedMessageFor issued) pre (day :: rest) hpre,
    scanDays_cons_auth env issued.year issued.month dir
      (exhaustedMessageFor issued) day rest hauth]
  simp

theorem tryDownloadingBill_auth_stops_witness :
    tryDownloadingBill envAuthDay15 ⟨2024, 0, 1⟩ "bills" (some ⟨14, 16⟩)
      = (.ok (), ⟨([14] ++ [15]).map (mkDate 2024 0), [], []⟩) :=
  tryDownloadingBill_auth_stops envAuthDay15 ⟨2024, 0, 1⟩ "bills"
    ⟨14, 16⟩ [14] [16] 15 (by decide) (by decide) (by decide)

/-- C2 counterexample: the probe for 2024-01-14 locates a document but the
storage write throws an I/O error; the error is not propagated to the
caller — the scan keeps probing the remaining days of the window and the
caller receives the window-exhaustion error instead, so the claim that a
storage failure is propagated is false. -/
theorem tryDownloadingBill_writefail_counterexample :
    envWriteFail.writeOracle "bills/9001234567-2024-01-14.pdf"
        [37, 80, 68, 70] = some "EACCES: permission denied" ∧
    (tryDownloadingBill envWriteFail ⟨2024, 0, 1⟩ "bills" none).2.writesAttempted
      = ["bills/9001234567-2024-01-14.pdf"] ∧
    (tryDownloadingBill envWriteFail ⟨2024, 0, 1⟩ "bills" none).2.writesSucceeded
      = [] ∧
    (tryDownloadingBill envWriteFail ⟨2024, 0, 1⟩ "bills" none).1
      = .error (.genericError
          "Unable to find and/or download a bill for the month of 01/2024") ∧
    (tryDownloadingBill envWriteFail ⟨2024, 0, 1⟩ "bills" none).2.probes.length
      = 7 :=
  ⟨rfl, rfl, rfl, rfl, rfl⟩

/-- C2 (amended): if persisting a located document fails, the I/O error is
caught by the same `catch` clause as probe failures and swallowed — not
propagated; the scan continues with the remaining days of the window, and
when they all miss, the month ends with the window-exhaustion error (so the
month is not reported as a success, but the caller observes exhaustion, not
the storage error). -/
theorem tryDownloadingBill_writefail_swallowed (env : Env) (issued : JsDate)
    (dir : String) (opts : PollingOptions) (pre rest : List Int) (day : Int)
    (bytes : List Nat) (ioMsg : String)
    (hwin : intRange (min 31 (max 0 opts.startTryingOn))
        (min 31 (max 0 opts.stopTryingOn)) = pre ++ day :: rest)
    (hpre : ∀ d ∈ pre,
      probeOutcome env (mkDate issued.year issued.month d) = .notFound)
    (hfound : probeOutcome env (mkDate issued.year issued.month day)
        = .documentFound bytes)
    (hwrite : env.writeOracle
        (pathResolve dir (env.accountNumber ++ "-"
          ++ formatYYYYMMDD (mkDate issued.year issued.month day) ++ ".pdf"))
        bytes = some ioMsg)
    (hrest : ∀ d ∈ rest,
      probeOutcome env (mkDate issued.year issued.month d) = .notFound) :
    tryDownloadingBill env issued dir (some opts)
      = (.error (.genericError
          ("Unable to find and/or download a bill for the month of "
            ++ formatMMYYYY issued)),
         ⟨(pre ++ day :: rest).map (mkDate issued.year issued.month),
          [pathResolve dir (env.accountNumber ++ "-"
            ++ formatYYYYMMDD (mkDate issued.year issued.month day) ++ ".pdf")],
          []⟩) := by
  rw [tryDownloadingBill_eq_scan, hwin,
    scanDays_append_notFound env issued.year issued.month dir
      (exhaustedMessageFor issued) pre (day :: rest) hpre,
    scanDays_cons_found_writefail env issued.year issued.month dir
      (exhaustedMessageFor issued) day rest bytes ioMsg hfound hwrite,
    scanDays_all_notFound env issued.year issued.month dir
      (exhaustedMessageFor issued) rest hrest]
  simp [exhaustedMessageFor]

theorem tryDownloadingBill_writefail_swallowed_witness :
    tryDownloadingBill envWriteFail ⟨2024, 0, 1⟩ "bills" (some ⟨14, 16⟩)
      = (.error (.genericError
          ("Unable to find and/or download a bill for the month of "
            ++ formatMMYYYY ⟨2024, 0, 1⟩)),
         ⟨([] ++ 14 :: [15, 16]).map (mkDate 2024 0),
          [pathResolve "bills" (envWriteFail.accountNumber ++ "-"
            ++ formatYYYYMMDD (mkDate 2024 0 14) ++ ".pdf")],
          []⟩) :=
  tryDownloadingBill_writefail_swallowed envWriteFail ⟨2024, 0, 1⟩ "bills"
    ⟨14, 16⟩ [] [15, 16] 14 [37, 80, 68, 70] "EACCES: permission denied"
    (by decide) (by decide) (by decide) (by decide) (by decide)

/-- C8 counterexample: the candidate day 31 of April 2024 (a 30-day month)
is not passed through as day 31 of April: the JavaScript `Date` constructor
normalizes it, and the single probe issued requests May 1, 2024
(`BillDate=05/01/2024`) — so the claim that the probe request carries "that
exact day for the target month and year" is false for overflowing days. -/
theorem tryDownloadingBill_overflow_counterexample :
    (tryDownloadingBill envNotFound ⟨2024, 3, 1⟩ "bills"
        (some ⟨31, 31⟩)).2.probes = [⟨2024, 4, 1⟩] ∧
    daysInMonth 2024 3 = 30 ∧
    formatMMDDYYYY (⟨2024, 4, 1⟩ : JsDate) = "05/01/2024" ∧
    (⟨2024, 4, 1⟩ : JsDate) ≠ ⟨2024, 3, 31⟩ := by
  decide

/-- C8 (amended): every candidate day of the window is handed to the date
constructor without calendar validation or skipping — exactly one probe is
issued for it — but the constructor normalizes overflow: a day within the
month's length is kept as-is, day 0 becomes the last day of the previous
month, and a day beyond the month's length carries into the next month; the
request layer receives the normalized date and its response alone
determines the outcome. -/
theorem tryDownloadingBill_day_normalized (y : Int) (m : Nat)
    (dayIssued : Nat) (d : Int) (dir : String)
    (hd0 : 0 ≤ d) (hd31 : d ≤ 31) :
    (tryDownloadingBill envNotFound ⟨y, m, dayIssued⟩ dir
        (some ⟨d, d⟩)).2.probes = [mkDate y m d] ∧
    (1 ≤ d → d ≤ (daysInMonth y m : Int) → mkDate y m d = ⟨y, m, d.toNat⟩) ∧
    (d = 0 → m ≠ 0 → mkDate y m d = ⟨y, m - 1, daysInMonth y (m - 1)⟩) ∧
    (d = 0 → m = 0 → mkDate y m d = ⟨y - 1, 11, daysInMonth (y - 1) 11⟩) ∧
    ((daysInMonth y m : Int) < d → m ≠ 11 →
      mkDate y m d = ⟨y, m + 1, (d - (daysInMonth y m : Int)).toNat⟩) ∧
    ((daysInMonth y m : Int) < d → m = 11 →
      mkDate y m d = ⟨y + 1, 0, (d - (daysInMonth y m : Int)).toNat⟩) := by
  refine ⟨?_, ?_, ?_, ?_, ?_, ?_⟩
  · have hs : min 31 (max 0 d) = d := by omega
    rw [tryDownloadingBill_eq_scan]
    rw [hs, intRange_self,
      scanDays_all_notFound envNotFound _ _ dir _ [d]
        (fun x _ => probeOutcome_envNotFound _)]
    rfl
  · intro h1 h2
    unfold mkDate
    rw [if_neg (by omega), if_pos h2]
  · intro h0 hm
    subst h0
    unfold mkDate
    rw [if_pos (by norm_num)]
    simp only [if_neg hm]
    norm_num
  · intro h0 hm
    subst h0
    subst hm
    unfold mkDate
    rw [if_pos (by norm_num)]
    norm_num
  · intro hlt hm
    unfold mkDate
    rw [if_neg (by omega), if_neg (by omega)]
    simp only [if_neg hm]
  · intro hlt hm
    subst hm
    unfold mkDate
    rw [if_neg (by omega), if_neg (by omega)]
    norm_num

theorem tryDownloadingBill_day_normalized_witness :
    ((tryDownloadingBill envNotFound ⟨2024, 3, 1⟩ "bills"
        (some ⟨31, 31⟩)).2.probes = [mkDate 2024 3 31] ∧
    (1 ≤ (31 : Int) → (31 : Int) ≤ (daysInMonth 2024 3 : Int) →
      mkDate 2024 3 31 = ⟨2024, 3, (31 : Int).toNat⟩) ∧
    ((31 : Int) = 0 → (3 : Nat) ≠ 0 →
      mkDate 2024 3 31 = ⟨2024, 2, daysInMonth 2024 2⟩) ∧
    ((31 : Int) = 0 → (3 : Nat) = 0 →
      mkDate 2024 3 31 = ⟨2023, 11, daysInMonth 2023 11⟩) ∧
    ((daysInMonth 2024 3 : Int) < 31 → (3 : Nat) ≠ 11 →
      mkDate 2024 3 31 = ⟨2024, 4, ((31 : Int) - (daysInMonth 2024 3 : Int)).toNat⟩) ∧
    ((daysInMonth 2024 3 : Int) < 31 → (3 : Nat) = 11 →
      mkDate 2024 3 31 = ⟨2025, 0, ((31 : Int) - (daysInMonth 2024 3 : Int)).toNat⟩)) :=
  tryDownloadingBill_day_normalized 2024 3 1 31 "bills" (by decide) (by decide)

end NicorBills
